import Mathlib

/-!
Shallow embedding of the rate-limiting subsystem of the repository:
`services/rate_limiter.py` and `services/cache_service.py`.

Machine integers are modelled as `ℤ` (Python integers are unbounded), wall-clock
values returned by `time.time()` as `ℚ` (exact arithmetic in place of floats),
and Python's `int(...)` truncation as `pyInt`. The cache is a key-value store
holding the three shapes of value the rate limiter writes: integer counters,
timestamp lists, and token-bucket records. Cache backends are modelled as a
record of pure state-transition functions so that the healthy in-memory store
and a failing distributed store are two instances of one interface, exactly as
in `CacheService`.
-/

namespace Said

/-- Values stored in the cache by the rate limiter: integer counters,
timestamp lists (sliding window), or token-bucket records. -/
inductive CacheVal where
  | vInt (n : ℤ)
  | vList (l : List ℤ)
  | vBucket (tokens : ℚ) (last_refill : ℚ)
deriving DecidableEq

/-- The state of the in-memory cache: a partial map from keys to values.
TTLs are threaded through but not modelled (all claims are about behaviour
at a single instant, before any expiry). -/
def Store : Type := String → Option CacheVal

/-- The empty cache. -/
def emptyStore : Store := fun _ => none

/-- Update one key of a store. -/
def storeSet (s : Store) (k : String) (v : CacheVal) : Store :=
  fun k2 => if k2 = k then some v else s k2

/-- Remove one key of a store. -/
def storeDel (s : Store) (k : String) : Store :=
  fun k2 => if k2 = k then none else s k2

/-- A cache backend as seen by the rate limiter: the operations of
`CacheService` (`get`, `set`, `delete`, `increment_rate_limit`) as pure
state-transition functions over a backend state `σ`. The extra `mutate`
operation models an in-place update of the object previously returned by
`get` for a key: the in-memory backend hands out the stored record itself,
so such mutations reach the store, while the distributed backend hands out a
freshly deserialized copy, so they do not. -/
structure CacheM (σ : Type) where
  get : String → σ → Option CacheVal
  set : String → CacheVal → ℤ → σ → Bool × σ
  delete : String → σ → Bool × σ
  increment_rate_limit : String → ℤ → σ → ℤ × σ
  mutate : String → CacheVal → σ → σ

/-- Reading an integer counter: `await cache_service.get(key) or 0`. -/
def getIntD (v : Option CacheVal) : ℤ :=
  match v with
  | some (.vInt n) => n
  | _ => 0

/-- Reading a timestamp list: `await cache_service.get(key) or []`. -/
def getListD (v : Option CacheVal) : List ℤ :=
  match v with
  | some (.vList l) => l
  | _ => []

/-- The healthy in-memory backend (`InMemoryCache` behind `CacheService`).
`increment_rate_limit` is the in-process fallback path of
`CacheService.increment_rate_limit`: it prefixes the key with `rate_limit:`
and performs a get-then-set read-modify-write. `get` returns the stored
object itself, so `mutate` writes through whenever the key holds a bucket
record — the aliased case, where the caller's in-place field updates land in
the store; an absent key yields a fresh default record in the source, so
there is nothing to write through then. -/
def memCache : CacheM Store where
  get k s := s k
  set k v _ s := (true, storeSet s k v)
  delete k s := ((s k).isSome, storeDel s k)
  increment_rate_limit identifier _window s :=
    let cache_key := "rate_limit:" ++ identifier
    let current := getIntD (s cache_key)
    let new_value := current + 1
    (new_value, storeSet s cache_key (.vInt new_value))
  mutate k v s :=
    match s k with
    | some (.vBucket _ _) => storeSet s k v
    | _ => s

/-- Which cache operations fail (raise inside the backend) during a check.
`RedisCache` catches the exception and substitutes `None` / `False` / `0`. -/
structure FailFlags where
  failGet : Bool
  failSet : Bool
  failIncrement : Bool
deriving DecidableEq

/-- A distributed backend (`RedisCache`) in which the flagged operations
fail: a failed `get` yields `None`, a failed `set` yields `False` and writes
nothing, and a failed `increment` yields `0` and writes nothing. Redis
deserializes every fetched value into a fresh object (`json.loads`), so
in-place mutations of a fetched value never reach the store: `mutate` is the
identity. -/
def flaggedCache (f : FailFlags) : CacheM Store where
  get k s := if f.failGet then none else s k
  set k v ttl s := if f.failSet then (false, s) else memCache.set k v ttl s
  delete k s := memCache.delete k s
  increment_rate_limit i w s :=
    if f.failIncrement then (0, s) else memCache.increment_rate_limit i w s
  mutate _ _ s := s

/-- Rate-limiting strategies (`RateLimitStrategy`). -/
inductive RateLimitStrategy where
  | FIXED_WINDOW
  | SLIDING_WINDOW
  | TOKEN_BUCKET
deriving DecidableEq

/-- Rate limit configuration (`RateLimit`). -/
structure RateLimit where
  requests : ℤ
  window : ℤ
  strategy : RateLimitStrategy := .FIXED_WINDOW
  burst : Option ℤ := none
deriving DecidableEq

/-- Rate limit check result (`RateLimitResult`). -/
structure RateLimitResult where
  allowed : Bool
  remaining : ℤ
  reset_time : ℤ
  retry_after : Option ℤ := none
deriving DecidableEq

/-- Python `int(...)` on a rational: truncation toward zero. -/
def pyInt (q : ℚ) : ℤ := Int.tdiv q.num q.den

/-- The standard-tier policy table `RateLimiter.default_limits`. -/
def default_limits (limit_type : String) : Option RateLimit :=
  if limit_type = "global" then some { requests := 1000, window := 3600 }
  else if limit_type = "per_ip" then some { requests := 100, window := 3600 }
  else if limit_type = "per_user" then some { requests := 500, window := 3600 }
  else if limit_type = "upload" then some { requests := 10, window := 3600 }
  else if limit_type = "ai_query" then some { requests := 50, window := 3600 }
  else if limit_type = "auth" then some { requests := 5, window := 300 }
  else none

/-- The premium-tier policy table `RateLimiter.premium_limits`. -/
def premium_limits (limit_type : String) : Option RateLimit :=
  if limit_type = "global" then some { requests := 10000, window := 3600 }
  else if limit_type = "per_ip" then some { requests := 1000, window := 3600 }
  else if limit_type = "per_user" then some { requests := 5000, window := 3600 }
  else if limit_type = "upload" then some { requests := 100, window := 3600 }
  else if limit_type = "ai_query" then some { requests := 500, window := 3600 }
  else if limit_type = "auth" then some { requests := 10, window := 300 }
  else none

/-- Configuration lookup of `check_rate_limit`:
`limits.get(limit_type, self.default_limits["global"])`.
(The inner default of `getD` is dead: `default_limits "global"` is present.) -/
def resolveRateLimit (limit_type : String) (is_premium : Bool) : RateLimit :=
  let limits := if is_premium then premium_limits else default_limits
  (limits limit_type).getD ((default_limits "global").getD { requests := 0, window := 1 })

/-- Window start of the fixed-window strategy:
`(current_time // window) * window` (Python floor division). -/
def fixedWindowStart (rl : RateLimit) (now : ℤ) : ℤ :=
  now.fdiv rl.window * rl.window

/-- Embedding of `RateLimiter._check_fixed_window`. -/
def check_fixed_window {σ : Type} (C : CacheM σ) (cache_key : String)
    (rl : RateLimit) (now : ℤ) (s : σ) : RateLimitResult × σ :=
  let window_start := fixedWindowStart rl now
  let window_key := cache_key ++ ":" ++ toString window_start
  let current_count := getIntD (C.get window_key s)
  if rl.requests ≤ current_count then
    let reset_time := window_start + rl.window
    ({ allowed := false, remaining := 0, reset_time := reset_time,
       retry_after := some (reset_time - now) }, s)
  else
    let inc := C.increment_rate_limit window_key rl.window s
    ({ allowed := true, remaining := max 0 (rl.requests - inc.1),
       reset_time := window_start + rl.window }, inc.2)

/-- Python `min(...)` over a list of integers (callers guarantee nonemptiness;
the `[]` case is unreachable there). -/
def listMin : List ℤ → ℤ
  | [] => 0
  | t :: ts => ts.foldl min t

/-- Embedding of `RateLimiter._check_sliding_window`. -/
def check_sliding_window {σ : Type} (C : CacheM σ) (cache_key : String)
    (rl : RateLimit) (now : ℤ) (s : σ) : RateLimitResult × σ :=
  let window_start := now - rl.window
  let timestamps_key := cache_key ++ ":timestamps"
  let timestamps := getListD (C.get timestamps_key s)
  let recent_timestamps := timestamps.filter (fun ts => window_start < ts)
  if rl.requests ≤ (recent_timestamps.length : ℤ) then
    let oldest_timestamp := listMin recent_timestamps
    let retry_after := oldest_timestamp + rl.window - now
    ({ allowed := false, remaining := 0,
       reset_time := oldest_timestamp + rl.window,
       retry_after := some (max 1 retry_after) }, s)
  else
    let updated := recent_timestamps ++ [now]
    let st := C.set timestamps_key (.vList updated) rl.window s
    ({ allowed := true, remaining := rl.requests - (updated.length : ℤ),
       reset_time := now + rl.window }, st.2)

/-- Bucket capacity `rate_limit.burst or rate_limit.requests`
(Python truthiness: a zero burst also falls back to `requests`). -/
def bucketCapacity (rl : RateLimit) : ℤ :=
  match rl.burst with
  | some b => if b = 0 then rl.requests else b
  | none => rl.requests

/-- Reading a bucket record, with the default
`{"tokens": rate_limit.requests, "last_refill": current_time}`. -/
def getBucketD (v : Option CacheVal) (rl : RateLimit) (now : ℚ) : ℚ × ℚ :=
  match v with
  | some (.vBucket tokens last_refill) => (tokens, last_refill)
  | _ => ((rl.requests : ℚ), now)

/-- Embedding of `RateLimiter._check_token_bucket`. The refill assigns
`bucket_data["tokens"]` and `bucket_data["last_refill"] = current_time` in
place before branching; since the in-memory backend's `get` returns the
stored record by reference, these assignments persist in the store even when
the check then denies — modelled by the `mutate` call ahead of the branch. -/
def check_token_bucket {σ : Type} (C : CacheM σ) (cache_key : String)
    (rl : RateLimit) (now : ℚ) (s : σ) : RateLimitResult × σ :=
  let bucket_key := cache_key ++ ":bucket"
  let bucket := getBucketD (C.get bucket_key s) rl now
  let time_elapsed := now - bucket.2
  let tokens_to_add : ℤ := pyInt (time_elapsed * ((rl.requests : ℚ) / (rl.window : ℚ)))
  let tokens : ℚ := min ((bucketCapacity rl : ℤ) : ℚ) (bucket.1 + (tokens_to_add : ℚ))
  let s1 := C.mutate bucket_key (.vBucket tokens now) s
  if tokens < 1 then
    let retry_after : ℤ := pyInt ((1 - tokens) * ((rl.window : ℚ) / (rl.requests : ℚ)))
    ({ allowed := false, remaining := 0,
       reset_time := pyInt (now + (retry_after : ℚ)),
       retry_after := some retry_after }, s1)
  else
    let new_tokens := tokens - 1
    let st := C.set bucket_key (.vBucket new_tokens now) (rl.window * 2) s1
    ({ allowed := true, remaining := pyInt new_tokens,
       reset_time := pyInt (now + (rl.window : ℚ)) }, st.2)

/-- Embedding of `RateLimiter.check_rate_limit`: resolve the configuration,
build the cache key, dispatch on the strategy. The integer-second strategies
receive `int(time.time())`, the token bucket the raw `time.time()`. -/
def check_rate_limit {σ : Type} (C : CacheM σ) (identifier limit_type : String)
    (is_premium : Bool) (now : ℚ) (s : σ) : RateLimitResult × σ :=
  let rl := resolveRateLimit limit_type is_premium
  let cache_key := "rate_limit:" ++ limit_type ++ ":" ++ identifier
  match rl.strategy with
  | .FIXED_WINDOW => check_fixed_window C cache_key rl (pyInt now) s
  | .SLIDING_WINDOW => check_sliding_window C cache_key rl (pyInt now) s
  | .TOKEN_BUCKET => check_token_bucket C cache_key rl now s

/-- Embedding of `RateLimiter.reset_rate_limit`: deletes
`rate_limit:{limit_type}:{identifier}`. -/
def reset_rate_limit {σ : Type} (C : CacheM σ) (identifier limit_type : String)
    (s : σ) : Bool × σ :=
  C.delete ("rate_limit:" ++ limit_type ++ ":" ++ identifier) s

/-- Python truthiness of an optional string (`None` and `""` are falsy). -/
def pyTruthy : Option String → Bool
  | none => false
  | some s => !s.isEmpty

/-- First entry of a forwarded-for chain: `forwarded_for.split(',')[0].strip()`. -/
def firstForwarded (f : String) : String :=
  ((f.splitOn ",").headD "").trim

/-- Embedding of `RateLimiter.get_identifier_from_request`. The caller context
is its `user_id` argument plus the request's `X-Forwarded-For` header,
`X-Real-IP` header, and optional client address. -/
def get_identifier_from_request
    (user_id x_forwarded_for x_real_ip client_host : Option String) : String :=
  if pyTruthy user_id then "user:" ++ user_id.getD ""
  else if pyTruthy x_forwarded_for then
    "ip:" ++ firstForwarded (x_forwarded_for.getD "")
  else if pyTruthy x_real_ip then "ip:" ++ x_real_ip.getD ""
  else "ip:" ++ client_host.getD "unknown"

/-- Outcome of `rate_limit_dependency`: normal return, a structured 429 with
its headers, or an uncaught `KeyError` from indexing `default_limits`. -/
inductive DepOutcome where
  | ok (result : RateLimitResult)
  | http429 (limitHeader remainingHeader resetHeader : ℤ)
      (retryAfterHeader : Option ℤ)
  | keyError (missingKey : String)
deriving DecidableEq

/-- Embedding of `rate_limit_dependency`: derive the identifier, check the
limit, and on denial build the response headers — indexing
`rate_limiter.default_limits[limit_type]` directly, which raises `KeyError`
when `limit_type` is not in the standard table. A zero `retry_after` is falsy
in Python, so no `Retry-After` header is attached then. -/
def rate_limit_dependency {σ : Type} (C : CacheM σ)
    (user_id x_forwarded_for x_real_ip client_host : Option String)
    (limit_type : String) (is_premium : Bool) (now : ℚ) (s : σ) :
    DepOutcome × σ :=
  let identifier := get_identifier_from_request user_id x_forwarded_for x_real_ip client_host
  let res := check_rate_limit C identifier limit_type is_premium now s
  if res.1.allowed then (.ok res.1, res.2)
  else
    match default_limits limit_type with
    | none => (.keyError limit_type, res.2)
    | some rl =>
        (.http429 rl.requests res.1.remaining res.1.reset_time
          (match res.1.retry_after with
           | some ra => if ra = 0 then none else some ra
           | none => none), res.2)

/-- Issue `n + 1` sequential checks at one instant, returning the last
result and the final store. -/
def iterateCheck {σ : Type} (C : CacheM σ) (identifier limit_type : String)
    (is_premium : Bool) (now : ℚ) : ℕ → σ → RateLimitResult × σ
  | 0, s => check_rate_limit C identifier limit_type is_premium now s
  | n + 1, s =>
      iterateCheck C identifier limit_type is_premium now n
        (check_rate_limit C identifier limit_type is_premium now s).2

/-- Consumed count of a fixed-window check, read off the same store: the
stored count when the check denies (nothing is consumed then), or the value
returned by the increment when it allows. -/
def fixedConsumedAfter {σ : Type} (C : CacheM σ) (cache_key : String)
    (rl : RateLimit) (now : ℤ) (s : σ) : ℤ :=
  let window_key := cache_key ++ ":" ++ toString (fixedWindowStart rl now)
  let current_count := getIntD (C.get window_key s)
  if rl.requests ≤ current_count then current_count
  else (C.increment_rate_limit window_key rl.window s).1

/-- Consumed count of a sliding-window check: the number of retained
timestamps, plus one for the current request when the check allows. -/
def slidingConsumedAfter {σ : Type} (C : CacheM σ) (cache_key : String)
    (rl : RateLimit) (now : ℤ) (s : σ) : ℤ :=
  let recent := (getListD (C.get (cache_key ++ ":timestamps") s)).filter
    (fun ts => now - rl.window < ts)
  if rl.requests ≤ (recent.length : ℤ) then recent.length
  else recent.length + 1

/-- An optional string with Python-falsy values (absent or empty) removed. -/
def nonEmptyOpt : Option String → Option String
  | none => none
  | some s => if s.isEmpty then none else some s

/-- Identifier derivation as amended: authenticated user id prefixed `user:`;
else the first (trimmed) address of the forwarded-for chain, else the
X-Real-IP address, else the direct client address, else the placeholder
`unknown`, the last four prefixed `ip:`. -/
def specIdentifier
    (user_id x_forwarded_for x_real_ip client_host : Option String) : String :=
  match nonEmptyOpt user_id, nonEmptyOpt x_forwarded_for,
      nonEmptyOpt x_real_ip, client_host with
  | some uid, _, _, _ => "user:" ++ uid
  | none, some fwd, _, _ => "ip:" ++ ((fwd.splitOn ",").headD "").trim
  | none, none, some ip, _ => "ip:" ++ ip
  | none, none, none, some host => "ip:" ++ host
  | none, none, none, none => "ip:" ++ "unknown"

/-- Token-bucket step as amended: with rate `limit / window`, the check adds
`⌊elapsed × rate⌋` tokens (the product truncated to an integer) capped at the
burst-or-limit capacity; when the refilled count is below 1 it denies with
`retry_after = ⌊(1 − tokens) / rate⌋`, otherwise it consumes one token.
Returns (allowed, tokens after the step, retry_after). -/
def amendedTokenBucket (rl : RateLimit) (tokens last_refill now : ℚ) :
    Bool × ℚ × ℤ :=
  let rate : ℚ := (rl.requests : ℚ) / (rl.window : ℚ)
  let refilled : ℚ :=
    min ((bucketCapacity rl : ℤ) : ℚ) (tokens + (⌊(now - last_refill) * rate⌋ : ℤ))
  if refilled < 1 then (false, refilled, ⌊(1 - refilled) / rate⌋)
  else (true, refilled - 1, 0)

/-! ### Arithmetic bridge lemmas -/

/-- Python truncation agrees with the floor on nonnegative rationals. -/
theorem pyInt_eq_floor {q : ℚ} (h : 0 ≤ q) : pyInt q = ⌊q⌋ := by
  have hn : 0 ≤ q.num := Rat.num_nonneg.mpr h
  have hd : (0 : ℤ) ≤ (q.den : ℤ) := Int.ofNat_nonneg _
  rw [pyInt, Int.tdiv_eq_ediv hn hd, Rat.floor_def]

/-- Python truncation of a nonnegative rational is nonnegative. -/
theorem pyInt_nonneg {q : ℚ} (h : 0 ≤ q) : 0 ≤ pyInt q := by
  rw [pyInt_eq_floor h]
  exact Int.floor_nonneg.mpr h

/-- The fixed-window start is at most the current time. -/
theorem fixedWindowStart_le {rl : RateLimit} (now : ℤ) (hw : 0 < rl.window) :
    fixedWindowStart rl now ≤ now := by
  rw [fixedWindowStart, Int.fdiv_eq_ediv _ (Int.le_of_lt hw)]
  exact Int.ediv_mul_le now (Int.ne_of_gt hw)

/-- The current time lies strictly before the end of its fixed window. -/
theorem lt_fixedWindowStart_add {rl : RateLimit} (now : ℤ) (hw : 0 < rl.window) :
    now < fixedWindowStart rl now + rl.window := by
  rw [fixedWindowStart, Int.fdiv_eq_ediv _ (Int.le_of_lt hw)]
  have h := Int.lt_ediv_add_one_mul_self now hw
  rw [Int.add_mul, Int.one_mul] at h
  exact h

/-- Folding `min` over a list yields the seed or a list element. -/
theorem foldl_min_mem (ts : List ℤ) (a : ℤ) : ts.foldl min a ∈ a :: ts := by
  induction ts generalizing a with
  | nil => simp
  | cons t ts ih =>
      have h := ih (min a t)
      simp only [List.foldl_cons]
      rcases List.mem_cons.mp h with h1 | h1
      · rcases min_choice a t with hm | hm
        · rw [h1, hm]; exact List.mem_cons_self _ _
        · rw [h1, hm]; exact List.mem_cons_of_mem _ (List.mem_cons_self _ _)
      · exact List.mem_cons_of_mem _ (List.mem_cons_of_mem _ h1)

/-- Python `min` of a nonempty list is an element of the list. -/
theorem listMin_mem {l : List ℤ} (h : l ≠ []) : listMin l ∈ l := by
  match l, h with
  | t :: ts, _ => simpa [listMin] using foldl_min_mem ts t

/-- Python truncation of zero is zero. -/
theorem pyInt_zero : pyInt 0 = 0 := rfl

/-- In the token-bucket deny branch, the computed `reset_time` is at least the
floor of the current time: the truncated `retry_after` is nonnegative. -/
theorem tokenDenyReset (rl : RateLimit) (t nowQ : ℚ)
    (hr : 1 ≤ rl.requests) (hw : 1 ≤ rl.window) (hq : 0 ≤ nowQ) (h : t < 1) :
    ⌊nowQ⌋ ≤ pyInt (nowQ + (pyInt ((1 - t) * ((rl.window : ℚ) / (rl.requests : ℚ))) : ℚ)) := by
  have hwq : (0 : ℚ) < (rl.window : ℚ) := by exact_mod_cast (by omega : (0:ℤ) < rl.window)
  have hrq : (0 : ℚ) < (rl.requests : ℚ) := by exact_mod_cast (by omega : (0:ℤ) < rl.requests)
  have h1 : (0 : ℚ) ≤ (1 - t) * ((rl.window : ℚ) / (rl.requests : ℚ)) :=
    mul_nonneg (by linarith) (div_pos hwq hrq).le
  have h2 : 0 ≤ pyInt ((1 - t) * ((rl.window : ℚ) / (rl.requests : ℚ))) := pyInt_nonneg h1
  have h3 : (0 : ℚ) ≤ ((pyInt ((1 - t) * ((rl.window : ℚ) / (rl.requests : ℚ)))) : ℚ) := by
    exact_mod_cast h2
  rw [pyInt_eq_floor (by linarith)]
  exact Int.floor_le_floor (by linarith)

/-! ### Claim theorems -/

/-- C1: the claim says a reset followed by a check yields `allowed = true`
with `remaining = limit - 1`. In the code, `reset_rate_limit` deletes
`rate_limit:auth:user:alice`, but the fixed-window counter lives under
`rate_limit:rate_limit:auth:user:alice:0` (the increment prefixes the already
prefixed window key), so after five checks of the `auth` class (limit 5) the
reset deletes nothing (returns `false`) and the next check reports
`remaining = 0` instead of `limit - 1 = 4`. -/
theorem c1_reset_then_check_remaining_not_full :
    (reset_rate_limit memCache "user:alice" "auth"
        (iterateCheck memCache "user:alice" "auth" false 0 4 emptyStore).2).1 = false ∧
    (check_rate_limit memCache "user:alice" "auth" false 0
        (reset_rate_limit memCache "user:alice" "auth"
          (iterateCheck memCache "user:alice" "auth" false 0 4 emptyStore).2).2).1 =
      { allowed := true, remaining := 0, reset_time := 300, retry_after := none } := by
  decide

/-- C2 counterexample: a premium caller with an unknown quota class is given
the standard-tier global configuration (1000/3600), not the premium-tier
global configuration (10000/3600), refuting the claim as stated. -/
theorem c2_premium_unknown_class_counterexample :
    resolveRateLimit "documents" true = { requests := 1000, window := 3600 } ∧
    premium_limits "global" = some { requests := 10000, window := 3600 } ∧
    ({ requests := 1000, window := 3600 } : RateLimit) ≠
      { requests := 10000, window := 3600 } := by
  decide

/-- C2 amended: for every quota class absent from both policy tables and for
both tiers, `check_rate_limit` uses the standard-tier `"global"`
configuration — the premium table is not consulted for the fallback. -/
theorem c2_unknown_class_falls_back_to_standard_global
    (limit_type : String) (is_premium : Bool)
    (h1 : default_limits limit_type = none) (h2 : premium_limits limit_type = none) :
    default_limits "global" = some (resolveRateLimit limit_type is_premium) := by
  cases is_premium <;> simp [resolveRateLimit, h1, h2] <;> rfl

/-- C2 witness: the amended fallback theorem applied to the concrete unknown
class `embeddings` for a premium caller. -/
theorem c2_unknown_class_falls_back_to_standard_global_witness :
    default_limits "embeddings" = none ∧ premium_limits "embeddings" = none ∧
    default_limits "global" = some (resolveRateLimit "embeddings" true) :=
  ⟨by decide, by decide,
    c2_unknown_class_falls_back_to_standard_global "embeddings" true (by decide) (by decide)⟩

/-- C3 counterexample: with limit 7 per 10 s (rate 0.7 tokens/s), an empty
bucket refilled after 1 s gains `int(0.7) = 0` tokens (exact arithmetic would
add 7/10), and the denial carries `retry_after = int(10/7) = 1`, whereas the
claimed formula `ceil((1 - tokens)/rate)` gives 2. -/
theorem c3_token_bucket_truncation_counterexample :
    (check_token_bucket memCache "tb"
        { requests := 7, window := 10, strategy := .TOKEN_BUCKET } 1
        (storeSet emptyStore "tb:bucket" (.vBucket 0 0))).1.retry_after = some 1 ∧
    ⌈((1 : ℚ) - 0) / ((7 : ℚ) / 10)⌉ = 2 ∧
    pyInt (((1 : ℚ) - 0) * ((7 : ℚ) / 10)) = 0 ∧
    ((1 : ℚ) - 0) * ((7 : ℚ) / 10) = 7 / 10 := by
  have hget : memCache.get ("tb" ++ ":bucket")
      (storeSet emptyStore "tb:bucket" (.vBucket 0 0)) = some (.vBucket 0 0) := by
    simp [memCache, storeSet]
  refine ⟨?_, ?_, ?_, ?_⟩
  · simp only [check_token_bucket, hget, getBucketD, bucketCapacity]
    norm_num [pyInt_eq_floor, min_def]
  · rw [Int.ceil_eq_iff]
    constructor <;> norm_num
  · rw [pyInt_eq_floor (by norm_num)]
    norm_num
  · norm_num

/-- C3 amended: for every configuration with positive limit and window and a
stored bucket with `last_refill ≤ now`, the check behaves as the amended
description: it adds `⌊elapsed × rate⌋` (the product truncated, not exact)
capped at the burst-or-limit capacity and sets `last_refill` to `now`; when
the refilled count is below 1 it denies with
`retry_after = ⌊(1 - tokens)/rate⌋` (truncated, not ceil); otherwise it
consumes one token. On either path the in-memory store ends up holding the
post-step bucket with `last_refill = now`, since `get` hands out the stored
record by reference and the refill mutates it in place. -/
theorem c3_token_bucket_truncated_refinement
    (key : String) (rl : RateLimit) (tokens last_refill now : ℚ) (s : Store)
    (hlr : last_refill ≤ now) (hr : 1 ≤ rl.requests) (hw : 1 ≤ rl.window) :
    (check_token_bucket memCache key rl now
        (storeSet s (key ++ ":bucket") (.vBucket tokens last_refill))).1.allowed
      = (amendedTokenBucket rl tokens last_refill now).1 ∧
    ((amendedTokenBucket rl tokens last_refill now).1 = false →
      (check_token_bucket memCache key rl now
          (storeSet s (key ++ ":bucket") (.vBucket tokens last_refill))).1.retry_after
        = some (amendedTokenBucket rl tokens last_refill now).2.2) ∧
    ((amendedTokenBucket rl tokens last_refill now).1 = true →
      (check_token_bucket memCache key rl now
          (storeSet s (key ++ ":bucket") (.vBucket tokens last_refill))).1.remaining
        = ⌊(amendedTokenBucket rl tokens last_refill now).2.1⌋) ∧
    (check_token_bucket memCache key rl now
        (storeSet s (key ++ ":bucket") (.vBucket tokens last_refill))).2 (key ++ ":bucket")
      = some (.vBucket (amendedTokenBucket rl tokens last_refill now).2.1 now) := by
  have hwq : (0 : ℚ) < (rl.window : ℚ) := by exact_mod_cast (by omega : (0:ℤ) < rl.window)
  have hrq : (0 : ℚ) < (rl.requests : ℚ) := by exact_mod_cast (by omega : (0:ℤ) < rl.requests)
  have hget : memCache.get (key ++ ":bucket")
      (storeSet s (key ++ ":bucket") (.vBucket tokens last_refill))
      = some (.vBucket tokens last_refill) := by
    simp [memCache, storeSet]
  have E : pyInt ((now - last_refill) * ((rl.requests : ℚ) / (rl.window : ℚ)))
      = ⌊(now - last_refill) * ((rl.requests : ℚ) / (rl.window : ℚ))⌋ :=
    pyInt_eq_floor (mul_nonneg (by linarith) (div_pos hrq hwq).le)
  refine ⟨?_, ?_, ?_, ?_⟩
  · simp only [check_token_bucket, amendedTokenBucket, hget, getBucketD, E]
    by_cases h : min ((bucketCapacity rl : ℤ) : ℚ)
        (tokens + (⌊(now - last_refill) * ((rl.requests : ℚ) / (rl.window : ℚ))⌋ : ℤ)) < 1
    · rw [if_pos h, if_pos h]
    · rw [if_neg h, if_neg h]
  · intro hfalse
    simp only [amendedTokenBucket] at hfalse ⊢
    by_cases h : min ((bucketCapacity rl : ℤ) : ℚ)
        (tokens + (⌊(now - last_refill) * ((rl.requests : ℚ) / (rl.window : ℚ))⌋ : ℤ)) < 1
    · simp only [check_token_bucket, hget, getBucketD, E]
      rw [if_pos h, if_pos h]
      have hprod : (0 : ℚ) ≤ (1 - min ((bucketCapacity rl : ℤ) : ℚ)
          (tokens + (⌊(now - last_refill) * ((rl.requests : ℚ) / (rl.window : ℚ))⌋ : ℤ)))
            * ((rl.window : ℚ) / (rl.requests : ℚ)) :=
        mul_nonneg (by linarith) (div_pos hwq hrq).le
      simp only [RateLimitResult.retry_after]
      congr 1
      rw [pyInt_eq_floor hprod]
      congr 1
      rw [div_div_eq_mul_div, mul_div_assoc]
    · rw [if_neg h] at hfalse
      simp at hfalse
  · intro htrue
    simp only [amendedTokenBucket] at htrue ⊢
    by_cases h : min ((bucketCapacity rl : ℤ) : ℚ)
        (tokens + (⌊(now - last_refill) * ((rl.requests : ℚ) / (rl.window : ℚ))⌋ : ℤ)) < 1
    · rw [if_pos h] at htrue
      simp at htrue
    · simp only [check_token_bucket, hget, getBucketD, E]
      rw [if_neg h, if_neg h]
      simp only [RateLimitResult.remaining]
      exact pyInt_eq_floor (by linarith [not_lt.mp h])
  · simp only [check_token_bucket, amendedTokenBucket, hget, getBucketD, E]
    by_cases h : min ((bucketCapacity rl : ℤ) : ℚ)
        (tokens + (⌊(now - last_refill) * ((rl.requests : ℚ) / (rl.window : ℚ))⌋ : ℤ)) < 1
    · rw [if_pos h, if_pos h]
      simp [memCache, storeSet]
    · rw [if_neg h, if_neg h]
      simp [memCache, storeSet]

/-- C3 witness: the truncated-refinement theorem applied to the concrete
bucket `{limit 5, window 5, burst 5}` holding 2 tokens refilled 1 s ago. -/
theorem c3_token_bucket_truncated_refinement_witness :
    ((0 : ℚ) ≤ 1 ∧ (1 : ℤ) ≤ 5 ∧ (1 : ℤ) ≤ 5) ∧
    (check_token_bucket memCache "w"
        { requests := 5, window := 5, strategy := .TOKEN_BUCKET, burst := some 5 } 1
        (storeSet emptyStore ("w" ++ ":bucket") (.vBucket 2 0))).1.allowed
      = (amendedTokenBucket
          { requests := 5, window := 5, strategy := .TOKEN_BUCKET, burst := some 5 } 2 0 1).1 :=
  ⟨⟨by norm_num, by decide, by decide⟩,
    (c3_token_bucket_truncated_refinement "w"
      { requests := 5, window := 5, strategy := .TOKEN_BUCKET, burst := some 5 }
      2 0 1 emptyStore (by norm_num) (by decide) (by decide)).1⟩

/-- C4: the claim says the `(limit+1)`-th check in one window is denied. For
the `auth` class (limit 5, fixed window) starting from an empty store, the
sixth sequential check is still allowed (with `remaining = 0`): the read of
the counter uses the unprefixed window key while the increment writes the
`rate_limit:`-prefixed one, so the deny branch never sees the count. -/
theorem c4_fixed_window_sixth_check_still_allowed :
    (iterateCheck memCache "user:bob" "auth" false 0 5 emptyStore).1 =
      { allowed := true, remaining := 0, reset_time := 300, retry_after := none } := by
  decide

/-- C5: under every backend, configuration, time and store state, `remaining`
equals `max 0 (limit - consumed)` for the fixed- and sliding-window
strategies (with `consumed` the post-check count), and is nonnegative on both
the allow and the deny path for all three strategies. -/
theorem c5_remaining_nonneg_and_clamped {σ : Type} (C : CacheM σ)
    (cache_key : String) (rl : RateLimit) (now : ℤ) (nowQ : ℚ) (s : σ) :
    (check_fixed_window C cache_key rl now s).1.remaining
        = max 0 (rl.requests - fixedConsumedAfter C cache_key rl now s) ∧
    (check_sliding_window C cache_key rl now s).1.remaining
        = max 0 (rl.requests - slidingConsumedAfter C cache_key rl now s) ∧
    0 ≤ (check_fixed_window C cache_key rl now s).1.remaining ∧
    0 ≤ (check_sliding_window C cache_key rl now s).1.remaining ∧
    0 ≤ (check_token_bucket C cache_key rl nowQ s).1.remaining := by
  refine ⟨?_, ?_, ?_, ?_, ?_⟩
  · by_cases h : rl.requests ≤ getIntD
        (C.get (cache_key ++ ":" ++ toString (fixedWindowStart rl now)) s)
    · simp [check_fixed_window, fixedConsumedAfter, h]
      try omega
    · simp [check_fixed_window, fixedConsumedAfter, h]
      try omega
  · by_cases h : rl.requests ≤
        (((getListD (C.get (cache_key ++ ":timestamps") s)).filter
          (fun ts => now - rl.window < ts)).length : ℤ)
    · simp [check_sliding_window, slidingConsumedAfter, h]
      try omega
    · simp [check_sliding_window, slidingConsumedAfter, h]
      try omega
  · by_cases h : rl.requests ≤ getIntD
        (C.get (cache_key ++ ":" ++ toString (fixedWindowStart rl now)) s)
    · simp [check_fixed_window, h]
    · simp [check_fixed_window, h]
  · by_cases h : rl.requests ≤
        (((getListD (C.get (cache_key ++ ":timestamps") s)).filter
          (fun ts => now - rl.window < ts)).length : ℤ)
    · simp [check_sliding_window, h]
      try omega
    · simp [check_sliding_window, h]
      try omega
  · simp only [check_token_bucket]
    split
    · simp
    · rename_i h
      exact pyInt_nonneg (by linarith [not_lt.mp h])

/-- C6 counterexample: a token bucket with limit 10 per 5 s window, drained to
0 tokens at time 201/2 and immediately rechecked, denies with
`retry_after = int(1 × 5/10) = 0` and `reset_time = int(201/2) = 100`, which
is strictly below the current time 201/2 — refuting the claim as stated. -/
theorem c6_reset_time_before_now_counterexample :
    (check_token_bucket memCache "k"
        { requests := 10, window := 5, strategy := .TOKEN_BUCKET } (201/2)
        (storeSet emptyStore "k:bucket" (.vBucket 0 (201/2)))).1.allowed = false ∧
    (check_token_bucket memCache "k"
        { requests := 10, window := 5, strategy := .TOKEN_BUCKET } (201/2)
        (storeSet emptyStore "k:bucket" (.vBucket 0 (201/2)))).1.reset_time = 100 ∧
    (((check_token_bucket memCache "k"
        { requests := 10, window := 5, strategy := .TOKEN_BUCKET } (201/2)
        (storeSet emptyStore "k:bucket" (.vBucket 0 (201/2)))).1.reset_time : ℚ) < 201/2) := by
  have hget : memCache.get ("k" ++ ":bucket")
      (storeSet emptyStore "k:bucket" (.vBucket 0 (201/2)))
      = some (.vBucket 0 (201/2)) := by
    simp [memCache, storeSet]
  simp only [check_token_bucket, hget, getBucketD, bucketCapacity]
  norm_num [pyInt_eq_floor, min_def]

/-- C6 amended: when a check denies, `reset_time` is at least the current
time for the fixed- and sliding-window strategies; for the token bucket it is
at least the integer part of the current time (it can undershoot a fractional
current time by less than one second when the truncated `retry_after` is 0,
as in the counterexample). -/
theorem c6_reset_time_lower_bounds {σ : Type} (C : CacheM σ)
    (cache_key : String) (rl : RateLimit) (now : ℤ) (nowQ : ℚ) (s : σ)
    (hr : 1 ≤ rl.requests) (hw : 1 ≤ rl.window) (hq : 0 ≤ nowQ) :
    ((check_fixed_window C cache_key rl now s).1.allowed = false →
      now ≤ (check_fixed_window C cache_key rl now s).1.reset_time) ∧
    ((check_sliding_window C cache_key rl now s).1.allowed = false →
      now ≤ (check_sliding_window C cache_key rl now s).1.reset_time) ∧
    ((check_token_bucket C cache_key rl nowQ s).1.allowed = false →
      ⌊nowQ⌋ ≤ (check_token_bucket C cache_key rl nowQ s).1.reset_time) := by
  refine ⟨?_, ?_, ?_⟩
  · simp only [check_fixed_window]
    split
    · intro _
      exact le_of_lt (lt_fixedWindowStart_add now (by omega))
    · simp
  · simp only [check_sliding_window]
    split
    · rename_i h
      intro _
      have hne : ((getListD (C.get (cache_key ++ ":timestamps") s)).filter
          (fun ts => decide (now - rl.window < ts))) ≠ [] := by
        intro hnil
        rw [hnil] at h
        simp at h
        omega
      have hmem := listMin_mem hne
      have hgt : now - rl.window < listMin
          ((getListD (C.get (cache_key ++ ":timestamps") s)).filter
            (fun ts => decide (now - rl.window < ts))) := by
        have h2 := (List.mem_filter.mp hmem).2
        exact of_decide_eq_true h2
      simp only [RateLimitResult.reset_time]
      omega
    · simp
  · simp only [check_token_bucket]
    split
    · rename_i h
      intro _
      exact tokenDenyReset rl _ nowQ hr hw hq h
    · simp

/-- C6 witness: the lower-bound theorem applied to the configuration
3 per 60 s at time 7 on an empty store. -/
theorem c6_reset_time_lower_bounds_witness :
    ((1 : ℤ) ≤ 3 ∧ (1 : ℤ) ≤ 60 ∧ (0 : ℚ) ≤ 7) ∧
    ((check_fixed_window memCache "k2" { requests := 3, window := 60 } 7 emptyStore).1.allowed
        = false →
      7 ≤ (check_fixed_window memCache "k2"
        { requests := 3, window := 60 } 7 emptyStore).1.reset_time) :=
  ⟨⟨by decide, by decide, by norm_num⟩,
    (c6_reset_time_lower_bounds memCache "k2" { requests := 3, window := 60 } 7 7 emptyStore
      (by decide) (by decide) (by norm_num)).1⟩

/-- C7: when the backing store's `get` fails (yielding the documented `None`
fallback), every strategy allows the request; and the allow/deny verdict
never depends on whether `set` or `increment` fail, since the decision is
made before those operations. The rate limiter fails open on store outages. -/
theorem c7_store_failure_fails_open (f : FailFlags) (cache_key : String)
    (rl : RateLimit) (now : ℤ) (nowQ : ℚ) (s : Store)
    (hr : 1 ≤ rl.requests) (hc : 1 ≤ bucketCapacity rl) :
    (f.failGet = true →
      (check_fixed_window (flaggedCache f) cache_key rl now s).1.allowed = true ∧
      (check_sliding_window (flaggedCache f) cache_key rl now s).1.allowed = true ∧
      (check_token_bucket (flaggedCache f) cache_key rl nowQ s).1.allowed = true) ∧
    ((check_fixed_window (flaggedCache f) cache_key rl now s).1.allowed
      = (check_fixed_window (flaggedCache ⟨f.failGet, false, false⟩)
          cache_key rl now s).1.allowed) ∧
    ((check_sliding_window (flaggedCache f) cache_key rl now s).1.allowed
      = (check_sliding_window (flaggedCache ⟨f.failGet, false, false⟩)
          cache_key rl now s).1.allowed) ∧
    ((check_token_bucket (flaggedCache f) cache_key rl nowQ s).1.allowed
      = (check_token_bucket (flaggedCache ⟨f.failGet, false, false⟩)
          cache_key rl nowQ s).1.allowed) := by
  refine ⟨fun hg => ⟨?_, ?_, ?_⟩, ?_, ?_, ?_⟩
  · simp [check_fixed_window, flaggedCache, hg, getIntD,
      show ¬ (rl.requests ≤ 0) by omega]
  · simp [check_sliding_window, flaggedCache, hg, getListD,
      show ¬ (rl.requests ≤ 0) by omega]
  · have hcq : ¬ (((bucketCapacity rl : ℤ) : ℚ) < 1) :=
      not_lt.mpr (by exact_mod_cast hc)
    have hrq : ¬ ((rl.requests : ℚ) < 1) := not_lt.mpr (by exact_mod_cast hr)
    simp [check_token_bucket, flaggedCache, hg, getBucketD, pyInt_zero, hcq, hrq]
  · by_cases h : rl.requests ≤ getIntD ((flaggedCache f).get
        (cache_key ++ ":" ++ toString (fixedWindowStart rl now)) s)
    · simp only [flaggedCache] at h
      simp [check_fixed_window, flaggedCache, h]
    · simp only [flaggedCache] at h
      simp [check_fixed_window, flaggedCache, h]
  · by_cases h : rl.requests ≤
        (((getListD ((flaggedCache f).get (cache_key ++ ":timestamps") s)).filter
          (fun ts => now - rl.window < ts)).length : ℤ)
    · simp only [flaggedCache] at h
      simp [check_sliding_window, flaggedCache, h]
    · simp only [flaggedCache] at h
      simp [check_sliding_window, flaggedCache, h]
  · simp only [check_token_bucket, flaggedCache]
    split <;> split <;> simp_all

/-- C7 witness: the fail-open theorem applied to a backend whose every
operation fails, with the `auth`-class configuration 5 per 300 s. -/
theorem c7_store_failure_fails_open_witness :
    ((1 : ℤ) ≤ ({ requests := 5, window := 300 } : RateLimit).requests ∧
     (1 : ℤ) ≤ bucketCapacity { requests := 5, window := 300 }) ∧
    (check_fixed_window (flaggedCache ⟨true, true, true⟩) "k3"
        { requests := 5, window := 300 } 0 emptyStore).1.allowed = true :=
  ⟨⟨by decide, by decide⟩,
    ((c7_store_failure_fails_open ⟨true, true, true⟩ "k3"
        { requests := 5, window := 300 } 0 0 emptyStore (by decide) (by decide)).1 rfl).1⟩

/-- C9 counterexample: with no user id, no forwarded-for or real-ip header
and no client address, the derived identifier is `ip:unknown` — the literal
string `unknown` is never returned bare, refuting the claim as stated. -/
theorem c9_identifier_unknown_counterexample :
    get_identifier_from_request none none none none ≠ "unknown" ∧
    get_identifier_from_request none none none none = "ip:unknown" := by
  decide

/-- C9 amended: the identifier follows the priority — truthy user id
(`user:` prefix), else first trimmed forwarded-for entry, else the X-Real-IP
header, else the client address, else the placeholder `unknown`, the last
four prefixed `ip:` — and every identifier carries a `user:` or `ip:`
prefix, so the two namespaces never collide. -/
theorem c9_identifier_priority_amended (u f r c : Option String) :
    get_identifier_from_request u f r c = specIdentifier u f r c ∧
    ((∃ rest, get_identifier_from_request u f r c = "user:" ++ rest) ∨
     (∃ rest, get_identifier_from_request u f r c = "ip:" ++ rest)) := by
  constructor
  · rcases u with _ | su <;> rcases f with _ | sf <;> rcases r with _ | sr <;>
      rcases c with _ | sc <;>
      simp only [get_identifier_from_request, specIdentifier, nonEmptyOpt, pyTruthy] <;>
      split_ifs <;> simp_all [firstForwarded]
  · unfold get_identifier_from_request
    split_ifs
    · exact Or.inl ⟨_, rfl⟩
    · exact Or.inr ⟨_, rfl⟩
    · exact Or.inr ⟨_, rfl⟩
    · exact Or.inr ⟨_, rfl⟩

/-- C10: at the gatekeeper, a denied check for the unknown class `documents`
(denied because the store already holds 1000 at the read key) aborts with a
`KeyError` while indexing `default_limits` for the headers; and a denied
premium check for `global` reports `X-RateLimit-Limit` 1000, the
standard-tier limit, although the premium limit is 10000. -/
theorem c10_dependency_keyerror_and_wrong_premium_header :
    (rate_limit_dependency memCache (some "alice") none none none "documents" false 0
        (storeSet emptyStore "rate_limit:documents:user:alice:0" (.vInt 1000))).1 =
      .keyError "documents" ∧
    (rate_limit_dependency memCache (some "alice") none none none "global" true 0
        (storeSet emptyStore "rate_limit:global:user:alice:0" (.vInt 10000))).1 =
      .http429 1000 0 3600 (some 3600) ∧
    premium_limits "global" = some { requests := 10000, window := 3600 } := by
  decide

end Said
